import Mathlib

/-!
Shallow embedding of the OSF models under verification:
  * `osf/models/osf_group.py` (OSFGroup membership / manager operations, logging,
    node permission grants),
  * `osf/models/metaschema.py` (RegistrationSchema validation error handling,
    schema / schema-block uniqueness, RegistrationSchemaBlock.save),
  * `website/addons/dataverse/model.py` (waterbutler serialization, add_user_auth).

Users are identified by numeric ids; a global `Env` carries the per-user flags
(`is_registered`, `is_disabled`) that the Django `OSFUser` rows hold.  Django
group membership (`user_set`) is a duplicate-free list of user ids; `add` is a
no-op when the user is already present and `remove` drops every occurrence,
matching Django many-to-many semantics.  Python exceptions are values of
`PyErr`; a Python method returning `None` is `Except.ok none`, returning
`False` is `Except.ok (some false)`.
-/

/-- Python exception values raised by the embedded code. -/
inductive PyErr where
  | permissionsError (msg : String)
  | valueError (msg : String)
  | httpError (code : Nat)
  | validationError (msg : String)
  | validationValueError (msg : String)
  | addonError (msg : String)
  | integrityError (msg : String)
  | attributeError
  | indexError
deriving DecidableEq, Repr

/-- Per-user flags from the OSFUser rows (outside the group state). -/
structure Env where
  is_registered : Nat → Bool
  is_disabled : Nat → Bool

/-- `framework.auth.core.Auth`: carries the acting user. -/
structure Auth where
  user : Nat
deriving DecidableEq, Repr

/-- `OSFGroupLog` actions used by `osf_group.py`. -/
inductive LogAction where
  | group_created
  | manager_added
  | member_added
  | role_updated
  | member_removed
  | edited_name
  | node_connected
  | node_perms_updated
  | node_disconnected
deriving DecidableEq, Repr

/-- One `OSFGroupLog` row: action, acting user (from `auth`), params dict
(values rendered as strings). -/
structure GroupLog where
  action : LogAction
  user : Option Nat
  params : List (String × String)
deriving DecidableEq, Repr

/-- Django `user_set.add`: no-op when already present, else append. -/
def addElem {α : Type} [DecidableEq α] (l : List α) (x : α) : List α :=
  if x ∈ l then l else l ++ [x]

/-- Django `user_set.remove`: drop every occurrence. -/
def removeElem {α : Type} [DecidableEq α] (l : List α) (x : α) : List α :=
  l.filter (fun y => y ≠ x)

/-- `osf.utils.permissions.MANAGE`. -/
def MANAGE : String := "manage"

/-- `osf.utils.permissions.MEMBER`. -/
def MEMBER : String := "member"

/-- `osf.utils.permissions.MANAGER`. -/
def MANAGER : String := "manager"

/-- The state of one `OSFGroup` row together with its two Django groups
(`member_group.user_set`, `manager_group.user_set`), its `OSFGroupLog` rows,
and the guardian permissions its member group holds on each node
(`nodePerms n` is the list of perms such as `read_node` on node `n`). -/
structure OSFGroup where
  gid : Nat
  name : String
  memberSet : List Nat
  managerSet : List Nat
  logs : List GroupLog
  nodePerms : Nat → List String
  deleted : Bool

namespace OSFGroup

/-- `OSFGroup.has_permission`: `user.has_perm('{}_group'.format(permission), self)`.
Modelled from the spec: guardian resolves `manage_group` through membership of
the manager Django group and `member_group` through the member Django group;
per the source comments ("unregistered members have no perms") an unregistered
user never holds a permission. -/
def has_permission (env : Env) (g : OSFGroup) (u : Nat) (permission : String) : Bool :=
  if permission = MANAGE then decide (u ∈ g.managerSet) && env.is_registered u
  else if permission = MEMBER then decide (u ∈ g.memberSet) && env.is_registered u
  else false

/-- `OSFGroup._require_manager_permission`: raises `PermissionsError` when an
auth is supplied whose user lacks the `manage` permission. -/
def requireManagerPermission (env : Env) (g : OSFGroup) (auth : Option Auth) :
    Except PyErr Unit :=
  match auth with
  | none => .ok ()
  | some a =>
      if g.has_permission env a.user MANAGE then .ok ()
      else .error (.permissionsError "Must be a group manager to modify group membership.")

/-- `OSFGroup._enforce_one_manager` raises exactly when this is true:
`(len(self.managers) == 1 and self.managers[0] == user) or
 not self.managers.filter(is_registered=True).exclude(id=user.id)`. -/
def enforceOneManagerFails (env : Env) (managers : List Nat) (u : Nat) : Bool :=
  (managers.length == 1 && managers.head? == some u) ||
    (managers.filter (fun v => env.is_registered v && v != u)).isEmpty

/-- `OSFGroup.add_log`: appends one `OSFGroupLog` row (the log's `save()`),
recording the acting user from `auth`. -/
def add_log (g : OSFGroup) (action : LogAction) (params : List (String × String))
    (auth : Option Auth) : OSFGroup :=
  { g with logs := g.logs ++ [{ action := action, user := auth.map Auth.user, params := params }] }

/-- `OSFGroup.add_role_updated_log`. -/
def add_role_updated_log (g : OSFGroup) (u : Nat) (role : String) (auth : Option Auth) :
    OSFGroup :=
  g.add_log .role_updated
    [("group", toString g.gid), ("new_role", role), ("user", toString u)] auth

/-- `OSFGroup.make_member`: add member or downgrade manager to member. -/
def make_member (env : Env) (g : OSFGroup) (u : Nat) (auth : Option Auth) :
    Except PyErr (Option Bool) × OSFGroup :=
  match g.requireManagerPermission env auth with
  | .error e => (.error e, g)
  | .ok _ =>
    if env.is_disabled u then
      (.error (.valueError "Deactivated users cannot be added to OSF Groups."), g)
    else if u ∈ g.memberSet ∧ u ∉ g.managerSet then
      -- `user in self.members_only`
      (.ok (some false), g)
    else
      let g1 : OSFGroup := { g with memberSet := addElem g.memberSet u }
      if g1.has_permission env u MANAGE then
        if enforceOneManagerFails env g1.managerSet u then
          (.error (.valueError "Group must have at least one manager."), g1)
        else
          let g2 : OSFGroup := { g1 with managerSet := removeElem g1.managerSet u }
          (.ok none, g2.add_role_updated_log u MEMBER auth)
      else
        (.ok none, g1.add_log .member_added
          [("group", toString g.gid), ("user", toString u)] auth)

/-- `OSFGroup.make_manager`: add manager or upgrade member to manager. -/
def make_manager (env : Env) (g : OSFGroup) (u : Nat) (auth : Option Auth) :
    Except PyErr (Option Bool) × OSFGroup :=
  match g.requireManagerPermission env auth with
  | .error e => (.error e, g)
  | .ok _ =>
    if env.is_disabled u then
      (.error (.valueError "Deactivated users cannot be added to OSF Groups."), g)
    else if u ∈ g.managerSet then
      -- `if self.is_manager(user): return False`
      (.ok (some false), g)
    else
      let g1 : OSFGroup :=
        if u ∉ g.memberSet then
          g.add_log .manager_added [("group", toString g.gid), ("user", toString u)] auth
        else
          g.add_role_updated_log u MANAGER auth
      (.ok none, { g1 with managerSet := addElem g1.managerSet u,
                           memberSet := addElem g1.memberSet u })

/-- `OSFGroup.remove_member`: remove member or manager. -/
def remove_member (env : Env) (g : OSFGroup) (u : Nat) (auth : Option Auth) :
    Except PyErr (Option Bool) × OSFGroup :=
  let perm : Except PyErr Unit :=
    match auth with
    | some a => if a.user = u then .ok () else g.requireManagerPermission env (some a)
    | none => g.requireManagerPermission env none
  match perm with
  | .error e => (.error e, g)
  | .ok _ =>
    if u ∉ g.memberSet then (.ok (some false), g)
    else if enforceOneManagerFails env g.managerSet u then
      (.error (.valueError "Group must have at least one manager."), g)
    else
      let g1 : OSFGroup := { g with managerSet := removeElem g.managerSet u,
                                    memberSet := removeElem g.memberSet u }
      (.ok none, g1.add_log .member_removed
        [("group", toString g.gid), ("user", toString u)] auth)

/-- `OSFGroup.replace_contributor`: replace unregistered member `oldUser` with
verified user `newUser`.  (The unclaimed-record bookkeeping lives on the user
row, outside the group state.)  Iterates the `member` and `manager` Django
groups, removing `oldUser` and adding `newUser` to each group containing
`oldUser`.  No log entry is written. -/
def replace_contributor (g : OSFGroup) (oldUser newUser : Nat) :
    Except PyErr (Option Bool) × OSFGroup :=
  if oldUser ∉ g.memberSet then (.ok (some false), g)
  else
    let mem2 := if oldUser ∈ g.memberSet
      then addElem (removeElem g.memberSet oldUser) newUser else g.memberSet
    let mgr2 := if oldUser ∈ g.managerSet
      then addElem (removeElem g.managerSet oldUser) newUser else g.managerSet
    (.ok (some true), { g with memberSet := mem2, managerSet := mgr2 })

/-- `OSFGroup.set_group_name`.  `sanitize.strip_html` lives outside src and is
passed in as the string transformation `stripHtml`. -/
def set_group_name (env : Env) (g : OSFGroup) (stripHtml : String → String)
    (name : String) (auth : Option Auth) : Except PyErr (Option Bool) × OSFGroup :=
  match g.requireManagerPermission env auth with
  | .error e => (.error e, g)
  | .ok _ =>
    let newName := stripHtml name
    if g.name = newName then (.ok (some false), g)
    else
      (.ok none, ({ g with name := newName }).add_log .edited_name
        [("group", toString g.gid), ("name_original", g.name)] auth)

end OSFGroup

/-- Modelled from the spec: `AbstractNode.groups` (the node model is outside
src/), mapping a permission name to the guardian perms it cascades to —
"cascading permission grants onto external node resources". -/
def nodeGroupPerms : String → Option (List String)
  | "read" => some ["read_node"]
  | "write" => some ["read_node", "write_node"]
  | "admin" => some ["read_node", "write_node", "admin_node"]
  | _ => none

/-- Modelled from the spec: `osf.utils.permissions.reduce_permissions` (outside
src/) reduces a list of guardian node perms to the highest permission name. -/
def reduce_permissions (perms : List String) : Except PyErr String :=
  if "admin_node" ∈ perms then .ok "admin"
  else if "write_node" ∈ perms then .ok "write"
  else if "read_node" ∈ perms then .ok "read"
  else .error (.valueError "Permissions list is invalid")

namespace OSFGroup

/-- `OSFGroup._get_node_group_perms`: `node.groups.get(permission)`, raising
`ValueError` when falsy. -/
def get_node_group_perms (permission : String) : Except PyErr (List String) :=
  match nodeGroupPerms permission with
  | some perms => .ok perms
  | none => .error (.valueError "not a valid permission")

/-- Replace the member group's guardian perms on one node. -/
def setNodePerms (g : OSFGroup) (node : Nat) (perms : List String) : OSFGroup :=
  { g with nodePerms := fun m => if m = node then perms else g.nodePerms m }

/-- `OSFGroup.update_group_permissions_to_node`. -/
def update_group_permissions_to_node (g : OSFGroup) (node : Nat)
    (permission : String) (auth : Option Auth) : Except PyErr (Option Bool) × OSFGroup :=
  match reduce_permissions (g.nodePerms node) with
  | .error e => (.error e, g)
  | .ok current =>
    if current = permission then (.ok (some false), g)
    else
      match get_node_group_perms permission with
      | .error e => (.error e, g)
      | .ok permissions =>
        -- remove perms not in the target set, then assign every target perm
        let kept := (g.nodePerms node).filter (fun p => p ∈ permissions)
        let g1 := g.setNodePerms node (permissions.foldl addElem kept)
        (.ok none, g1.add_log .node_perms_updated
          [("group", toString g.gid), ("node", toString node), ("permission", permission)]
          auth)

/-- `OSFGroup.add_group_to_node`: gives the OSF group permissions to the node. -/
def add_group_to_node (env : Env) (g : OSFGroup) (node : Nat) (permission : String)
    (auth : Option Auth) : Except PyErr (Option Bool) × OSFGroup :=
  match g.requireManagerPermission env auth with
  | .error e => (.error e, g)
  | .ok _ =>
    let perms := g.nodePerms node
    if perms ≠ [] then
      match reduce_permissions perms with
      | .error e => (.error e, g)
      | .ok current =>
        if current = permission then (.ok (some false), g)
        else g.update_group_permissions_to_node node permission auth
    else
      match get_node_group_perms permission with
      | .error e => (.error e, g)
      | .ok permissions =>
        let g1 := g.setNodePerms node (permissions.foldl addElem perms)
        (.ok none, g1.add_log .node_connected
          [("group", toString g.gid), ("node", toString node), ("permission", permission)]
          auth)

/-- `OSFGroup.remove_group_from_node`: removes the member group's perms on the
node (every perm in `node.groups[ADMIN]`). -/
def remove_group_from_node (g : OSFGroup) (node : Nat) (auth : Option Auth) :
    Except PyErr (Option Bool) × OSFGroup :=
  if g.nodePerms node = [] then (.ok (some false), g)
  else
    let adminPerms := ["read_node", "write_node", "admin_node"]
    let g1 := g.setNodePerms node ((g.nodePerms node).filter (fun p => p ∉ adminPerms))
    (.ok none, g1.add_log .node_disconnected
      [("group", toString g.gid), ("node", toString node)] auth)

/-- `OSFGroup.remove_group`: deletes the group and its two Django groups. -/
def remove_group (env : Env) (g : OSFGroup) (auth : Option Auth) :
    Except PyErr (Option Bool) × OSFGroup :=
  match g.requireManagerPermission env auth with
  | .error e => (.error e, g)
  | .ok _ =>
    (.ok none, { g with deleted := true, memberSet := [], managerSet := [] })

/-- `OSFGroup.save` on a fresh row (`not bool(self.pk)`): `super().save()`
fires the `post_save` receiver `add_project_created_log` (a `GROUP_CREATED`
log with the creator as acting user), then `update_group_permissions()` wires
the guardian groups (no membership change), then `make_manager(self.creator)`
with no auth. -/
def saveFirst (env : Env) (gid : Nat) (name : String) (creator : Nat) :
    Except PyErr (Option Bool) × OSFGroup :=
  let g0 : OSFGroup :=
    { gid := gid, name := name, memberSet := [], managerSet := [], logs := [],
      nodePerms := fun _ => [], deleted := false }
  let g1 := g0.add_log .group_created [("group", toString gid)] (some { user := creator })
  g1.make_manager env creator none

end OSFGroup

/-!  `osf/models/metaschema.py`.

`jsonschema.validate` is an external library call; its outcome (success, a
`jsonschema.ValidationError` carrying `relative_schema_path`, `relative_path`
and `message`, or a `jsonschema.SchemaError`) is the input of the embedded
exception handlers.  Python indexes `e.relative_schema_path[0]` and
`e.relative_path[0]` on deques, which raises `IndexError` when empty; that is
modelled by `PyErr.indexError`. -/

/-- One question of a page of `RegistrationSchema.schema['pages']`:
`title`, `qid`, and whether the question dict has an `options` key. -/
structure SchemaQuestion where
  title : String
  qid : String
  hasOptions : Bool
deriving DecidableEq, Repr

/-- One page: its `questions` list. -/
structure SchemaPage where
  questions : List SchemaQuestion
deriving DecidableEq, Repr

/-- Outcome of the external `jsonschema.validate` call. -/
inductive JsonschemaOutcome where
  | ok
  | vError (relative_schema_path : List String) (relative_path : List String) (message : String)
  | sError (message : String)
deriving DecidableEq, Repr

/-- Message of the `required` branch (surrounding quotes of the Python format
string omitted). -/
def requiredMessage (title : String) : String :=
  "For your registration the " ++ title ++ " field is required"

/-- Message of the `additionalProperties` branch. -/
def extraneousMessage (qid : String) : String :=
  "For your registration the " ++ qid ++ " field is extraneous and not permitted in your response."

/-- Message of the enum/options branch. -/
def optionsMessage (title : String) : String :=
  "For your registration your response to the " ++ title ++
    " field is invalid, your response must be one of the provided options."

/-- Message of the generic invalid-response branch of `validate_metadata`. -/
def invalidMessage (title : String) : String :=
  "For your registration your response to the " ++ title ++ " field is invalid."

/-- The per-question body of the `for page ... for question ...` loop of
`validate_metadata`, folded over the flattened question list; falling off the
end is `raise ValidationError(e)`. -/
def metadataScan (sp rp : List String) (message : String) :
    List SchemaQuestion → Except PyErr Unit
  | [] => .error (.validationError message)
  | q :: rest =>
    match sp.head? with
    | none => .error .indexError  -- e.relative_schema_path[0] on an empty deque
    | some sp0 =>
      if sp0 = "required" then .error (.validationError (requiredMessage q.title))
      else if sp0 = "additionalProperties" then
        .error (.validationError (extraneousMessage q.qid))
      else
        match rp.head? with
        | none => .error .indexError  -- e.relative_path[0] on an empty deque
        | some rp0 =>
          if rp0 = q.qid then
            if q.hasOptions then .error (.validationError (optionsMessage q.title))
            else .error (.validationError (invalidMessage q.title))
          else metadataScan sp rp message rest

/-- `RegistrationSchema.validate_metadata`: `pages` is
`self.schema['pages']`, `outcome` the result of the `jsonschema.validate`
call on the metadata against `create_jsonschema_from_metaschema(...)`. -/
def validate_metadata (pages : List SchemaPage) (outcome : JsonschemaOutcome) :
    Except PyErr Unit :=
  match outcome with
  | .ok => .ok ()
  | .sError m => .error (.validationValueError m)
  | .vError sp rp m => metadataScan sp rp m (pages.flatMap SchemaPage.questions)

/-- One property of the flattened validation schema of
`validate_registration_responses`: its `description` (the stashed question
title) and whether the property dict has an `enum` key. -/
structure ResponseProperty where
  description : Option String
  hasEnum : Bool
deriving DecidableEq, Repr

/-- `properties.get(question_id).get('description') or question_id`: the
question title used in the response-validation messages (Python falsy
`description`, i.e. `None` or the empty string, falls back to the key). -/
def responseTitle (question_id : String) (prop : ResponseProperty) : String :=
  match prop.description with
  | some d => if d = "" then question_id else d
  | none => question_id

/-- Message of the enum branch of `validate_registration_responses`. -/
def responsesOptionsMessage (title : String) : String :=
  "For your registration, your response to the " ++ title ++
    " field is invalid, your response must be one of the provided options."

/-- Message of the generic branch of `validate_registration_responses`
(the original `e.message` is appended). -/
def responsesInvalidMessage (title message : String) : String :=
  "For your registration, your response to the " ++ title ++
    " field is invalid. " ++ message

/-- `RegistrationSchema.validate_registration_responses`: `properties` is
`validation_schema.get('properties', {})` (an association list), `outcome` the
result of the `jsonschema.validate` call against
`build_flattened_jsonschema(self, ...)`. -/
def validate_registration_responses (properties : List (String × ResponseProperty))
    (outcome : JsonschemaOutcome) : Except PyErr Bool :=
  match outcome with
  | .ok => .ok true
  | .sError m => .error (.validationValueError m)
  | .vError sp rp m =>
    let question_id := rp.head?.getD ""
    match properties.lookup question_id with
    | some prop =>
      let question_title := responseTitle question_id prop
      match sp.head? with
      | none => .error .indexError  -- e.relative_schema_path[0] on an empty deque
      | some sp0 =>
        if sp0 = "required" then .error (.validationError (requiredMessage question_title))
        else if prop.hasEnum then
          .error (.validationError (responsesOptionsMessage question_title))
        else
          .error (.validationError (responsesInvalidMessage question_title m))
    | none => .error (.validationError m)

/-!  Database uniqueness (`AbstractSchema.Meta.unique_together` and
`RegistrationSchemaBlock.Meta.unique_together`) and
`RegistrationSchemaBlock.save`. -/

/-- One `AbstractSchema` row (fields of the uniqueness constraint). -/
structure SchemaRow where
  name : String
  schema_version : Nat
deriving DecidableEq, Repr

/-- Modelled from the spec: the database enforcement of
`unique_together = ('name', 'schema_version')` declared in
`AbstractSchema.Meta` — inserting a row clashing with an existing row on both
fields is rejected (the enforcement itself lives in the database layer,
outside src/). -/
def insertSchemaRow (table : List SchemaRow) (r : SchemaRow) :
    Except PyErr (List SchemaRow) :=
  if table.any (fun x => x.name = r.name ∧ x.schema_version = r.schema_version) then
    .error (.integrityError "duplicate key value violates unique constraint")
  else .ok (table ++ [r])

/-- One `RegistrationSchemaBlock` row (fields relevant to the uniqueness
constraint and to `save`): the owning schema's id and the
`registration_response_key` (nullable text column). -/
structure BlockRow where
  schema : Nat
  registration_response_key : Option String
deriving DecidableEq, Repr

/-- Modelled from the spec: the database enforcement of
`unique_together = ('schema', 'registration_response_key')` declared in
`RegistrationSchemaBlock.Meta` — two rows of the same schema may not share a
non-null key (SQL NULLs never clash), the enforcement itself living in the
database layer, outside src/. -/
def insertBlockRow (table : List BlockRow) (b : BlockRow) :
    Except PyErr (List BlockRow) :=
  if table.any (fun x => x.schema = b.schema ∧
      x.registration_response_key = b.registration_response_key ∧
      x.registration_response_key ≠ none) then
    .error (.integrityError "duplicate key value violates unique constraint")
  else .ok (table ++ [b])

/-- `RegistrationSchemaBlock.save`: the normalization
`self.registration_response_key = self.registration_response_key or None`
(Python falsy: `None` or the empty string), then the ordinary save, embedded
as an insert into the block table. -/
def blockSave (table : List BlockRow) (b : BlockRow) : Except PyErr (List BlockRow) :=
  let key :=
    match b.registration_response_key with
    | some s => if s = "" then none else some s
    | none => none
  insertBlockRow table { b with registration_response_key := key }

/-!  `website/addons/dataverse/model.py`. -/

/-- `website.oauth.models.ExternalAccount` (the fields read here). -/
structure ExternalAccount where
  oauth_key : String
  oauth_secret : String
deriving DecidableEq, Repr

/-- `AddonDataverseNodeSettings` (fields read by the serializers).
`user_settings.isSome` stands for a linked, authorized
`AddonDataverseUserSettings` row. -/
structure AddonDataverseNodeSettings where
  external_account : Option ExternalAccount
  user_settings : Option Unit
  dataset_doi : Option String
  _dataset_id : Option String
  dataset : Option String
deriving DecidableEq, Repr

namespace AddonDataverseNodeSettings

/-- Modelled from the spec: `has_auth` of `AddonOAuthNodeSettingsBase`
(outside src/) — the node settings are authorized exactly when user settings
and an external account are linked. -/
def has_auth (s : AddonDataverseNodeSettings) : Bool :=
  s.user_settings.isSome && s.external_account.isSome

/-- The `dataset_id` property: returns the stored `_dataset_id`, or fetches it
from the Dataverse connection (`connect_from_settings_or_401` raises an HTTP
401 without user settings) and saves it.  `fetchedId` is the id the external
API would return. -/
def dataset_id (s : AddonDataverseNodeSettings) (fetchedId : String) :
    Except PyErr (String × AddonDataverseNodeSettings) :=
  match s._dataset_id with
  | some i => .ok (i, s)
  | none =>
    match s.user_settings with
    | none => .error (.httpError 401)
    | some _ => .ok (fetchedId, { s with _dataset_id := some fetchedId })

/-- `serialize_waterbutler_credentials`. -/
def serialize_waterbutler_credentials (s : AddonDataverseNodeSettings) :
    Except PyErr (List (String × String)) :=
  if !s.has_auth then .error (.addonError "Addon is not authorized")
  else
    match s.external_account with
    | none => .error .attributeError
    | some acct => .ok [("token", acct.oauth_secret)]

/-- `serialize_waterbutler_settings` (dict values that may be Python `None`
are `Option String`). -/
def serialize_waterbutler_settings (s : AddonDataverseNodeSettings)
    (fetchedId : String) :
    Except PyErr (List (String × Option String)) × AddonDataverseNodeSettings :=
  match s.external_account with
  | none => (.error .attributeError, s)
  | some acct =>
    match s.dataset_id fetchedId with
    | .error e => (.error e, s)
    | .ok (i, s1) =>
      (.ok [("host", some acct.oauth_key), ("doi", s.dataset_doi),
            ("id", some i), ("name", s.dataset)], s1)

end AddonDataverseNodeSettings

/-- `DataverseProvider.add_user_auth`: `accountInUserAccounts` is
`external_account in user.external_accounts` (false also when
`ExternalAccount.load` found nothing), `setAuthResult` the outcome of the
external `node_addon.set_auth` call.  A `PermissionsError` from `set_auth`,
like a foreign account, becomes `HTTPError(403)`. -/
def add_user_auth (accountInUserAccounts : Bool) (setAuthResult : Except PyErr Unit) :
    Except PyErr Unit :=
  if !accountInUserAccounts then .error (.httpError 403)
  else
    match setAuthResult with
    | .error (.permissionsError _) => .error (.httpError 403)
    | .error e => .error e
    | .ok _ => .ok ()

/-!  Basic lemmas about the membership primitives. -/

theorem mem_addElem {α : Type} [DecidableEq α] {l : List α} {x v : α} :
    v ∈ addElem l x ↔ v ∈ l ∨ v = x := by
  unfold addElem
  split
  · rename_i hx
    constructor
    · exact Or.inl
    · rintro (h | rfl)
      · exact h
      · exact hx
  · simp

theorem mem_removeElem {α : Type} [DecidableEq α] {l : List α} {x v : α} :
    v ∈ removeElem l x ↔ v ∈ l ∧ v ≠ x := by
  simp [removeElem]

theorem addElem_of_mem {α : Type} [DecidableEq α] {l : List α} {x : α} (h : x ∈ l) :
    addElem l x = l := by
  simp [addElem, h]

@[simp] theorem add_log_managerSet (g : OSFGroup) (a : LogAction)
    (p : List (String × String)) (auth : Option Auth) :
    (g.add_log a p auth).managerSet = g.managerSet := rfl

@[simp] theorem add_log_memberSet (g : OSFGroup) (a : LogAction)
    (p : List (String × String)) (auth : Option Auth) :
    (g.add_log a p auth).memberSet = g.memberSet := rfl

@[simp] theorem add_log_logs (g : OSFGroup) (a : LogAction)
    (p : List (String × String)) (auth : Option Auth) :
    (g.add_log a p auth).logs =
      g.logs ++ [{ action := a, user := auth.map Auth.user, params := p }] := rfl

@[simp] theorem add_role_updated_log_managerSet (g : OSFGroup) (u : Nat) (role : String)
    (auth : Option Auth) : (g.add_role_updated_log u role auth).managerSet = g.managerSet := rfl

@[simp] theorem add_role_updated_log_memberSet (g : OSFGroup) (u : Nat) (role : String)
    (auth : Option Auth) : (g.add_role_updated_log u role auth).memberSet = g.memberSet := rfl

@[simp] theorem add_role_updated_log_logs (g : OSFGroup) (u : Nat) (role : String)
    (auth : Option Auth) :
    (g.add_role_updated_log u role auth).logs = g.logs ++
      [{ action := .role_updated, user := auth.map Auth.user,
         params := [("group", toString g.gid), ("new_role", role), ("user", toString u)] }] := rfl

/-- The invariant of claim C1: every user of the manager Django group also
belongs to the member Django group. -/
def managersSubsetMembers (g : OSFGroup) : Prop :=
  ∀ v, v ∈ g.managerSet → v ∈ g.memberSet

theorem make_member_preserves_inv (env : Env) (g : OSFGroup) (u : Nat) (auth : Option Auth)
    (hInv : managersSubsetMembers g) :
    managersSubsetMembers (g.make_member env u auth).2 := by
  unfold OSFGroup.make_member
  split
  · exact hInv
  · dsimp only
    split_ifs with hdis hmo hperm henf
    · exact hInv
    · exact hInv
    · intro v hv
      exact mem_addElem.mpr (Or.inl (hInv v hv))
    · intro v hv
      simp only [add_role_updated_log_managerSet, add_role_updated_log_memberSet] at hv ⊢
      exact mem_addElem.mpr (Or.inl (hInv v (mem_removeElem.mp hv).1))
    · intro v hv
      simp only [add_log_managerSet, add_log_memberSet] at hv ⊢
      exact mem_addElem.mpr (Or.inl (hInv v hv))

theorem make_manager_preserves_inv (env : Env) (g : OSFGroup) (u : Nat) (auth : Option Auth)
    (hInv : managersSubsetMembers g) :
    managersSubsetMembers (g.make_manager env u auth).2 := by
  unfold OSFGroup.make_manager
  split
  · exact hInv
  · dsimp only
    split_ifs with hdis hmgr hmem
    · exact hInv
    · exact hInv
    · intro v hv
      simp only [add_log_managerSet, add_log_memberSet] at hv ⊢
      rcases mem_addElem.mp hv with h | rfl
      · exact mem_addElem.mpr (Or.inl (hInv v h))
      · exact mem_addElem.mpr (Or.inr rfl)
    · intro v hv
      simp only [add_role_updated_log_managerSet, add_role_updated_log_memberSet] at hv ⊢
      rcases mem_addElem.mp hv with h | rfl
      · exact mem_addElem.mpr (Or.inl (hInv v h))
      · exact mem_addElem.mpr (Or.inr rfl)

theorem remove_member_preserves_inv (env : Env) (g : OSFGroup) (u : Nat) (auth : Option Auth)
    (hInv : managersSubsetMembers g) :
    managersSubsetMembers (g.remove_member env u auth).2 := by
  unfold OSFGroup.remove_member
  dsimp only
  split
  · exact hInv
  · split_ifs with henf hnm
    · exact hInv
    · intro v hv
      simp only [add_log_managerSet, add_log_memberSet] at hv ⊢
      have h := mem_removeElem.mp hv
      exact mem_removeElem.mpr ⟨hInv v h.1, h.2⟩
    · exact hInv

theorem replace_contributor_preserves_inv (g : OSFGroup) (oldUser newUser : Nat)
    (hInv : managersSubsetMembers g) :
    managersSubsetMembers (g.replace_contributor oldUser newUser).2 := by
  unfold OSFGroup.replace_contributor
  split_ifs with h1 h2
  · intro v hv
    dsimp only at hv ⊢
    rcases mem_addElem.mp hv with h | rfl
    · have h' := mem_removeElem.mp h
      exact mem_addElem.mpr (Or.inl (mem_removeElem.mpr ⟨hInv v h'.1, h'.2⟩))
    · exact mem_addElem.mpr (Or.inr rfl)
  · intro v hv
    dsimp only at hv ⊢
    have hvm := hInv v hv
    have hne : v ≠ oldUser := fun h => h2 (h ▸ hv)
    exact mem_addElem.mpr (Or.inl (mem_removeElem.mpr ⟨hvm, hne⟩))
  · exact hInv

theorem saveFirst_preserves_inv (env : Env) (gid : Nat) (name : String) (creator : Nat) :
    managersSubsetMembers (OSFGroup.saveFirst env gid name creator).2 := by
  unfold OSFGroup.saveFirst
  exact make_manager_preserves_inv env _ creator none (fun v hv => by simp at hv)

/-- C1: for every OSFGroup the manager group is a subset of the member group,
and this inclusion is preserved by `make_member`, `make_manager`,
`remove_member`, `replace_contributor` and the initial `save`. -/
theorem manager_subset_member_preserved
    (env : Env) (g : OSFGroup) (u oldUser newUser creator gid : Nat)
    (name : String) (auth : Option Auth)
    (hInv : managersSubsetMembers g) :
    managersSubsetMembers (g.make_member env u auth).2 ∧
    managersSubsetMembers (g.make_manager env u auth).2 ∧
    managersSubsetMembers (g.remove_member env u auth).2 ∧
    managersSubsetMembers (g.replace_contributor oldUser newUser).2 ∧
    managersSubsetMembers (OSFGroup.saveFirst env gid name creator).2 :=
  ⟨make_member_preserves_inv env g u auth hInv,
   make_manager_preserves_inv env g u auth hInv,
   remove_member_preserves_inv env g u auth hInv,
   replace_contributor_preserves_inv g oldUser newUser hInv,
   saveFirst_preserves_inv env gid name creator⟩

/-- An environment where every user is registered and none is disabled. -/
def envAll : Env := { is_registered := fun _ => true, is_disabled := fun _ => false }

/-- A concrete group: users 1 and 2 are members, user 1 is the manager. -/
def gExample : OSFGroup :=
  { gid := 1, name := "g", memberSet := [1, 2], managerSet := [1], logs := [],
    nodePerms := fun _ => [], deleted := false }

theorem manager_subset_member_preserved_witness :
    managersSubsetMembers (gExample.make_member envAll 2 none).2 ∧
    managersSubsetMembers (gExample.make_manager envAll 2 none).2 ∧
    managersSubsetMembers (gExample.remove_member envAll 2 none).2 ∧
    managersSubsetMembers (gExample.replace_contributor 2 3).2 ∧
    managersSubsetMembers (OSFGroup.saveFirst envAll 5 "h" 4).2 :=
  manager_subset_member_preserved envAll gExample 2 2 3 4 5 "h" none
    (by intro v hv; simp [gExample] at hv ⊢; simp [hv])

/-- C2: the first save of an OSFGroup leaves exactly the creator in the
manager group. -/
theorem saveFirst_managers_exactly_creator (env : Env) (gid : Nat) (name : String)
    (creator : Nat) (hcd : env.is_disabled creator = false) :
    (OSFGroup.saveFirst env gid name creator).2.managerSet = [creator] := by
  unfold OSFGroup.saveFirst OSFGroup.make_manager
  simp [OSFGroup.requireManagerPermission, hcd, OSFGroup.add_log, addElem]

theorem saveFirst_managers_exactly_creator_witness :
    (OSFGroup.saveFirst envAll 7 "x" 3).2.managerSet = [3] :=
  saveFirst_managers_exactly_creator envAll 7 "x" 3 rfl

/-- C9: on already-settled inputs the operations are no-ops returning `False`:
`make_member` on a member-only user, `make_manager` on a manager,
`remove_member` on a non-member, and `replace_contributor` with a non-member
old user all return `False` and change nothing, membership and log included. -/
theorem noop_operations_return_false
    (env : Env) (g : OSFGroup) (u w r oldUser newUser : Nat) (auth : Option Auth)
    (hauth : auth = none ∨ ∃ a, auth = some a ∧ g.has_permission env a.user MANAGE = true)
    (hudis : env.is_disabled u = false) (humem : u ∈ g.memberSet) (humgr : u ∉ g.managerSet)
    (hwdis : env.is_disabled w = false) (hwmgr : w ∈ g.managerSet)
    (hrauth : auth = none ∨
      ∃ a, auth = some a ∧ (a.user = r ∨ g.has_permission env a.user MANAGE = true))
    (hrmem : r ∉ g.memberSet)
    (homem : oldUser ∉ g.memberSet) :
    g.make_member env u auth = (.ok (some false), g) ∧
    g.make_manager env w auth = (.ok (some false), g) ∧
    g.remove_member env r auth = (.ok (some false), g) ∧
    g.replace_contributor oldUser newUser = (.ok (some false), g) := by
  have hreq : g.requireManagerPermission env auth = .ok () := by
    rcases hauth with rfl | ⟨a, rfl, hperm⟩
    · rfl
    · simp [OSFGroup.requireManagerPermission, hperm]
  refine ⟨?_, ?_, ?_, ?_⟩
  · simp [OSFGroup.make_member, hreq, hudis, humem, humgr]
  · simp [OSFGroup.make_manager, hreq, hwdis, hwmgr]
  · have hperm2 :
        (match auth with
          | some a => if a.user = r then Except.ok () else g.requireManagerPermission env (some a)
          | none => g.requireManagerPermission env none) = Except.ok () := by
      rcases hrauth with rfl | ⟨a, rfl, hcase⟩
      · rfl
      · rcases hcase with heq | hperm
        · simp [heq]
        · simp [OSFGroup.requireManagerPermission, hperm]
    simp [OSFGroup.remove_member, hperm2, hrmem]
  · simp [OSFGroup.replace_contributor, homem]

theorem noop_operations_return_false_witness :
    gExample.make_member envAll 2 none = (.ok (some false), gExample) ∧
    gExample.make_manager envAll 1 none = (.ok (some false), gExample) ∧
    gExample.remove_member envAll 5 none = (.ok (some false), gExample) ∧
    gExample.replace_contributor 5 6 = (.ok (some false), gExample) :=
  noop_operations_return_false envAll gExample 2 1 5 5 6 none
    (Or.inl rfl) rfl (by decide) (by decide) rfl (by decide)
    (Or.inl rfl) (by decide) (by decide)

/-- C8: when the targeted user is the group's only registered manager,
`remove_member` and a `make_member` downgrade raise `ValueError` and leave the
membership unchanged, so the group always retains a registered manager. -/
theorem only_registered_manager_cannot_leave
    (env : Env) (g : OSFGroup) (u : Nat) (auth : Option Auth)
    (hInv : managersSubsetMembers g)
    (hMgr : u ∈ g.managerSet)
    (hReg : env.is_registered u = true)
    (hOnly : ∀ v ∈ g.managerSet, v ≠ u → env.is_registered v = false)
    (hAuthMM : auth = none ∨ ∃ a, auth = some a ∧ g.has_permission env a.user MANAGE = true)
    (hAuthRM : auth = none ∨
      ∃ a, auth = some a ∧ (a.user = u ∨ g.has_permission env a.user MANAGE = true)) :
    ((∃ m, (g.make_member env u auth).1 = .error (.valueError m)) ∧
      (g.make_member env u auth).2.memberSet = g.memberSet ∧
      (g.make_member env u auth).2.managerSet = g.managerSet) ∧
    ((∃ m, (g.remove_member env u auth).1 = .error (.valueError m)) ∧
      (g.remove_member env u auth).2.memberSet = g.memberSet ∧
      (g.remove_member env u auth).2.managerSet = g.managerSet) := by
  have hreq : g.requireManagerPermission env auth = .ok () := by
    rcases hAuthMM with rfl | ⟨a, rfl, hperm⟩
    · rfl
    · simp [OSFGroup.requireManagerPermission, hperm]
  have hfilter : g.managerSet.filter (fun v => env.is_registered v && v != u) = [] := by
    apply List.filter_eq_nil_iff.mpr
    intro v hv
    by_cases hvu : v = u
    · subst hvu; simp
    · simp [hOnly v hv hvu]
  have henf : OSFGroup.enforceOneManagerFails env g.managerSet u = true := by
    simp [OSFGroup.enforceOneManagerFails, hfilter]
  have hmem : u ∈ g.memberSet := hInv u hMgr
  constructor
  · by_cases hdis : env.is_disabled u = true
    · refine ⟨⟨"Deactivated users cannot be added to OSF Groups.", ?_⟩, ?_, ?_⟩ <;>
        simp [OSFGroup.make_member, hreq, hdis]
    · have hdis' : env.is_disabled u = false := by
        revert hdis; cases env.is_disabled u <;> simp
      have hmo : ¬(u ∈ g.memberSet ∧ u ∉ g.managerSet) := fun h => h.2 hMgr
      have hperm : ∀ ms : List Nat, OSFGroup.has_permission env
          { g with memberSet := ms } u MANAGE = true := by
        intro ms
        simp [OSFGroup.has_permission, hMgr, hReg]
      refine ⟨⟨"Group must have at least one manager.", ?_⟩, ?_, ?_⟩ <;>
        simp [OSFGroup.make_member, hreq, hdis', hmo, hperm, henf, addElem_of_mem hmem]
  · have hperm2 :
        (match auth with
          | some a => if a.user = u then Except.ok () else g.requireManagerPermission env (some a)
          | none => g.requireManagerPermission env none) = Except.ok () := by
      rcases hAuthRM with rfl | ⟨a, rfl, hcase⟩
      · rfl
      · rcases hcase with heq | hperm
        · simp [heq]
        · simp [OSFGroup.requireManagerPermission, hperm]
    refine ⟨⟨"Group must have at least one manager.", ?_⟩, ?_, ?_⟩ <;>
      simp [OSFGroup.remove_member, hperm2, hmem, henf]

/-- A concrete one-manager group: user 1 is the single (registered) manager. -/
def gSolo : OSFGroup :=
  { gid := 3, name := "s", memberSet := [1], managerSet := [1], logs := [],
    nodePerms := fun _ => [], deleted := false }

theorem only_registered_manager_cannot_leave_witness :
    ((∃ m, (gSolo.make_member envAll 1 none).1 = .error (.valueError m)) ∧
      (gSolo.make_member envAll 1 none).2.memberSet = gSolo.memberSet ∧
      (gSolo.make_member envAll 1 none).2.managerSet = gSolo.managerSet) ∧
    ((∃ m, (gSolo.remove_member envAll 1 none).1 = .error (.valueError m)) ∧
      (gSolo.remove_member envAll 1 none).2.memberSet = gSolo.memberSet ∧
      (gSolo.remove_member envAll 1 none).2.managerSet = gSolo.managerSet) :=
  only_registered_manager_cannot_leave envAll gSolo 1 none
    (by intro v hv; simpa [gSolo] using hv) (by decide) rfl
    (by intro v hv hne; simp [gSolo] at hv; exact absurd hv hne)
    (Or.inl rfl) (Or.inl rfl)

/-- C6: every management-gated operation raises `PermissionsError` when the
supplied auth user lacks the `manage` permission, and
`DataverseProvider.add_user_auth` turns a `PermissionsError` from `set_auth`,
or a foreign external account, into an HTTP 403. -/
theorem permission_violations_yield_403
    (env : Env) (g : OSFGroup) (u node : Nat) (a : Auth)
    (stripHtml : String → String) (name permission m : String)
    (setAuthResult : Except PyErr Unit)
    (hperm : g.has_permission env a.user MANAGE = false)
    (hne : a.user ≠ u) :
    (g.make_member env u (some a)).1 =
      .error (.permissionsError "Must be a group manager to modify group membership.") ∧
    (g.make_manager env u (some a)).1 =
      .error (.permissionsError "Must be a group manager to modify group membership.") ∧
    (g.remove_member env u (some a)).1 =
      .error (.permissionsError "Must be a group manager to modify group membership.") ∧
    (g.set_group_name env stripHtml name (some a)).1 =
      .error (.permissionsError "Must be a group manager to modify group membership.") ∧
    (g.add_group_to_node env node permission (some a)).1 =
      .error (.permissionsError "Must be a group manager to modify group membership.") ∧
    (g.remove_group env (some a)).1 =
      .error (.permissionsError "Must be a group manager to modify group membership.") ∧
    add_user_auth false setAuthResult = .error (.httpError 403) ∧
    add_user_auth true (.error (.permissionsError m)) = .error (.httpError 403) := by
  have hreq : g.requireManagerPermission env (some a) =
      .error (.permissionsError "Must be a group manager to modify group membership.") := by
    simp [OSFGroup.requireManagerPermission, hperm]
  refine ⟨?_, ?_, ?_, ?_, ?_, ?_, rfl, rfl⟩
  · simp [OSFGroup.make_member, hreq]
  · simp [OSFGroup.make_manager, hreq]
  · simp [OSFGroup.remove_member, hreq, hne]
  · simp [OSFGroup.set_group_name, hreq]
  · simp [OSFGroup.add_group_to_node, hreq]
  · simp [OSFGroup.remove_group, hreq]

theorem permission_violations_yield_403_witness :
    (gExample.make_member envAll 1 (some { user := 9 })).1 =
      .error (.permissionsError "Must be a group manager to modify group membership.") ∧
    (gExample.make_manager envAll 1 (some { user := 9 })).1 =
      .error (.permissionsError "Must be a group manager to modify group membership.") ∧
    (gExample.remove_member envAll 1 (some { user := 9 })).1 =
      .error (.permissionsError "Must be a group manager to modify group membership.") ∧
    (gExample.set_group_name envAll id "n" (some { user := 9 })).1 =
      .error (.permissionsError "Must be a group manager to modify group membership.") ∧
    (gExample.add_group_to_node envAll 4 "write" (some { user := 9 })).1 =
      .error (.permissionsError "Must be a group manager to modify group membership.") ∧
    (gExample.remove_group envAll (some { user := 9 })).1 =
      .error (.permissionsError "Must be a group manager to modify group membership.") ∧
    add_user_auth false (.ok ()) = .error (.httpError 403) ∧
    add_user_auth true (.error (.permissionsError "perm")) = .error (.httpError 403) :=
  permission_violations_yield_403 envAll gExample 1 4 { user := 9 } id "n" "write" "perm"
    (.ok ()) (by decide) (by decide)

/-- C4: for an authorized Dataverse node settings object,
`serialize_waterbutler_credentials` is exactly the one-key dict
`token ↦ external_account.oauth_secret` and `serialize_waterbutler_settings`
is exactly the four-key dict `host, doi, id, name`; without authorization the
credentials serializer raises `AddonError`. -/
theorem dataverse_waterbutler_serialization
    (s : AddonDataverseNodeSettings) (acct : ExternalAccount) (i fetchedId : String)
    (hacct : s.external_account = some acct)
    (hus : s.user_settings = some ())
    (hid : s._dataset_id = some i) :
    s.serialize_waterbutler_credentials = .ok [("token", acct.oauth_secret)] ∧
    (s.serialize_waterbutler_settings fetchedId).1 =
      .ok [("host", some acct.oauth_key), ("doi", s.dataset_doi),
           ("id", some i), ("name", s.dataset)] ∧
    (∀ s2 : AddonDataverseNodeSettings, s2.has_auth = false →
      s2.serialize_waterbutler_credentials = .error (.addonError "Addon is not authorized")) := by
  refine ⟨?_, ?_, ?_⟩
  · simp [AddonDataverseNodeSettings.serialize_waterbutler_credentials,
      AddonDataverseNodeSettings.has_auth, hacct, hus]
  · simp [AddonDataverseNodeSettings.serialize_waterbutler_settings,
      AddonDataverseNodeSettings.dataset_id, hacct, hid]
  · intro s2 hna
    simp [AddonDataverseNodeSettings.serialize_waterbutler_credentials, hna]

/-- A concrete authorized Dataverse node settings object. -/
def dvExample : AddonDataverseNodeSettings :=
  { external_account := some { oauth_key := "host.example", oauth_secret := "tok" },
    user_settings := some (), dataset_doi := some "doi:10/xyz",
    _dataset_id := some "42", dataset := some "My Dataset" }

theorem dataverse_waterbutler_serialization_witness :
    dvExample.serialize_waterbutler_credentials = .ok [("token", "tok")] ∧
    (dvExample.serialize_waterbutler_settings "ignored").1 =
      .ok [("host", some "host.example"), ("doi", dvExample.dataset_doi),
           ("id", some "42"), ("name", dvExample.dataset)] ∧
    (∀ s2 : AddonDataverseNodeSettings, s2.has_auth = false →
      s2.serialize_waterbutler_credentials = .error (.addonError "Addon is not authorized")) :=
  dataverse_waterbutler_serialization dvExample
    { oauth_key := "host.example", oauth_secret := "tok" } "42" "ignored" rfl rfl rfl

/-- No two schema rows share both `name` and `schema_version`. -/
def schemaTableUnique (t : List SchemaRow) : Prop :=
  t.Pairwise (fun r1 r2 => r1.name ≠ r2.name ∨ r1.schema_version ≠ r2.schema_version)

/-- For a given schema, a non-null `registration_response_key` appears on at
most one block: any two rows of one schema sharing a key share the null key. -/
def blockTableUnique (t : List BlockRow) : Prop :=
  t.Pairwise (fun b1 b2 => b1.schema = b2.schema →
    b1.registration_response_key = b2.registration_response_key →
    b1.registration_response_key = none)

/-- C7: the `(name, schema_version)` uniqueness of `AbstractSchema` rows and
the `(schema, registration_response_key)` uniqueness of
`RegistrationSchemaBlock` rows are invariants of the insert operations that
the declared `unique_together` constraints enforce. -/
theorem unique_together_invariants
    (t t' : List SchemaRow) (r : SchemaRow)
    (tb tb' : List BlockRow) (b : BlockRow)
    (hu : schemaTableUnique t) (hins : insertSchemaRow t r = .ok t')
    (hub : blockTableUnique tb) (hinsb : insertBlockRow tb b = .ok tb') :
    schemaTableUnique t' ∧ blockTableUnique tb' := by
  constructor
  · unfold insertSchemaRow at hins
    split at hins
    · cases hins
    · rename_i hclash
      cases hins
      unfold schemaTableUnique
      rw [List.pairwise_append]
      refine ⟨hu, List.pairwise_singleton _ _, ?_⟩
      intro x hx y hy
      simp only [List.mem_singleton] at hy
      subst hy
      simp only [List.any_eq_true, not_exists, not_and] at hclash
      have := hclash x hx
      simp only [decide_eq_true_eq] at this
      rcases not_and_or.mp this with h | h
      · exact Or.inl h
      · exact Or.inr h
  · unfold insertBlockRow at hinsb
    split at hinsb
    · cases hinsb
    · rename_i hclash
      cases hinsb
      unfold blockTableUnique
      rw [List.pairwise_append]
      refine ⟨hub, List.pairwise_singleton _ _, ?_⟩
      intro x hx y hy
      simp only [List.mem_singleton] at hy
      subst hy
      simp only [List.any_eq_true, not_exists, not_and] at hclash
      have hnc := hclash x hx
      simp only [decide_eq_true_eq] at hnc
      intro hs hk
      by_contra hnn
      exact (not_and_or.mp hnc).elim (fun h => h hs)
        (fun h => (not_and_or.mp h).elim (fun h2 => h2 hk) (fun h2 => h2 hnn))

theorem unique_together_invariants_witness :
    schemaTableUnique [⟨"a", 1⟩, ⟨"a", 2⟩] ∧
    blockTableUnique [⟨5, some "k"⟩, ⟨5, some "j"⟩] :=
  unique_together_invariants [⟨"a", 1⟩] [⟨"a", 1⟩, ⟨"a", 2⟩] ⟨"a", 2⟩
    [⟨5, some "k"⟩] [⟨5, some "k"⟩, ⟨5, some "j"⟩] ⟨5, some "j"⟩
    (by unfold schemaTableUnique; decide) rfl
    (by unfold blockTableUnique; decide) rfl

/-- A successful `insertBlockRow` appends the row. -/
theorem insertBlockRow_ok_append (t t' : List BlockRow) (b : BlockRow)
    (h : insertBlockRow t b = .ok t') : t' = t ++ [b] := by
  unfold insertBlockRow at h
  split at h
  · cases h
  · cases h; rfl

/-- C10: `RegistrationSchemaBlock.save` normalizes a falsy
`registration_response_key` to null before saving, so a saved table never
holds an empty-string key, and an empty-string key is saved exactly as a null
key (hence exempt from the `(schema, registration_response_key)` uniqueness
constraint). -/
theorem blockSave_normalizes_falsy_key
    (t t' : List BlockRow) (b : BlockRow) (n : Nat)
    (hsave : blockSave t b = .ok t')
    (hprev : ∀ r ∈ t, r.registration_response_key ≠ some "") :
    (∀ r ∈ t', r.registration_response_key ≠ some "") ∧
    (∀ tbl : List BlockRow,
      blockSave tbl { schema := n, registration_response_key := some "" } =
        insertBlockRow tbl { schema := n, registration_response_key := none }) ∧
    (∀ tbl : List BlockRow,
      blockSave tbl { schema := n, registration_response_key := none } =
        insertBlockRow tbl { schema := n, registration_response_key := none }) := by
  refine ⟨?_, fun tbl => rfl, fun tbl => rfl⟩
  obtain ⟨k, hkprop, rfl⟩ : ∃ k, (k = none ∨ ∃ s, s ≠ "" ∧ k = some s) ∧
      t' = t ++ [{ b with registration_response_key := k }] := by
    unfold blockSave at hsave
    cases hk : b.registration_response_key with
    | none =>
      simp only [hk] at hsave
      exact ⟨none, Or.inl rfl, insertBlockRow_ok_append _ _ _ hsave⟩
    | some s =>
      simp only [hk] at hsave
      by_cases hs : s = ""
      · rw [if_pos hs] at hsave
        exact ⟨none, Or.inl rfl, insertBlockRow_ok_append _ _ _ hsave⟩
      · rw [if_neg hs] at hsave
        exact ⟨some s, Or.inr ⟨s, hs, rfl⟩, insertBlockRow_ok_append _ _ _ hsave⟩
  intro r hr
  rcases List.mem_append.mp hr with h | h
  · exact hprev r h
  · simp only [List.mem_singleton] at h
    subst h
    rcases hkprop with rfl | ⟨s, hs, rfl⟩
    · simp
    · simp [hs]

theorem blockSave_normalizes_falsy_key_witness :
    (∀ r ∈ [BlockRow.mk 5 none], r.registration_response_key ≠ some "") ∧
    (∀ tbl : List BlockRow,
      blockSave tbl { schema := 5, registration_response_key := some "" } =
        insertBlockRow tbl { schema := 5, registration_response_key := none }) ∧
    (∀ tbl : List BlockRow,
      blockSave tbl { schema := 5, registration_response_key := none } =
        insertBlockRow tbl { schema := 5, registration_response_key := none }) :=
  blockSave_normalizes_falsy_key [] [BlockRow.mk 5 none] ⟨5, some ""⟩ 5
    rfl (by decide)

/-- Append-only logging: the old log is a prefix of the new one, and an
operation that performed its change (Python returned `None`) appended at
least one entry. -/
def logsAppendOnly (g : OSFGroup) (out : Except PyErr (Option Bool) × OSFGroup) : Prop :=
  (∃ t, out.2.logs = g.logs ++ t) ∧
    (out.1 = .ok none → g.logs.length < out.2.logs.length)

theorem make_member_logsAppendOnly (env : Env) (g : OSFGroup) (u : Nat) (auth : Option Auth) :
    logsAppendOnly g (g.make_member env u auth) := by
  unfold OSFGroup.make_member
  split
  · exact ⟨⟨[], by simp⟩, by simp⟩
  · dsimp only
    split_ifs
    · exact ⟨⟨[], by simp⟩, by simp⟩
    · exact ⟨⟨[], by simp⟩, by simp⟩
    · exact ⟨⟨[], by simp⟩, by simp⟩
    · refine ⟨⟨_, rfl⟩, fun _ => ?_⟩
      simp
    · refine ⟨⟨_, rfl⟩, fun _ => ?_⟩
      simp

theorem make_manager_logsAppendOnly (env : Env) (g : OSFGroup) (u : Nat) (auth : Option Auth) :
    logsAppendOnly g (g.make_manager env u auth) := by
  unfold OSFGroup.make_manager
  split
  · exact ⟨⟨[], by simp⟩, by simp⟩
  · dsimp only
    split_ifs
    · exact ⟨⟨[], by simp⟩, by simp⟩
    · exact ⟨⟨[], by simp⟩, by simp⟩
    · refine ⟨⟨_, rfl⟩, fun _ => ?_⟩
      simp
    · refine ⟨⟨_, rfl⟩, fun _ => ?_⟩
      simp

theorem remove_member_logsAppendOnly (env : Env) (g : OSFGroup) (u : Nat) (auth : Option Auth) :
    logsAppendOnly g (g.remove_member env u auth) := by
  unfold OSFGroup.remove_member
  dsimp only
  split
  · exact ⟨⟨[], by simp⟩, by simp⟩
  · split_ifs
    · exact ⟨⟨[], by simp⟩, by simp⟩
    · refine ⟨⟨_, rfl⟩, fun _ => ?_⟩
      simp
    · exact ⟨⟨[], by simp⟩, by simp⟩

theorem set_group_name_logsAppendOnly (env : Env) (g : OSFGroup) (stripHtml : String → String)
    (name : String) (auth : Option Auth) :
    logsAppendOnly g (g.set_group_name env stripHtml name auth) := by
  unfold OSFGroup.set_group_name
  split
  · exact ⟨⟨[], by simp⟩, by simp⟩
  · dsimp only
    split_ifs
    · exact ⟨⟨[], by simp⟩, by simp⟩
    · refine ⟨⟨_, rfl⟩, fun _ => ?_⟩
      simp

theorem update_group_permissions_logsAppendOnly (g : OSFGroup) (node : Nat)
    (permission : String) (auth : Option Auth) :
    logsAppendOnly g (g.update_group_permissions_to_node node permission auth) := by
  unfold OSFGroup.update_group_permissions_to_node
  split
  · exact ⟨⟨[], by simp⟩, by simp⟩
  · dsimp only
    split_ifs
    · exact ⟨⟨[], by simp⟩, by simp⟩
    · split
      · exact ⟨⟨[], by simp⟩, by simp⟩
      · refine ⟨⟨_, rfl⟩, fun _ => ?_⟩
        simp [OSFGroup.setNodePerms]

theorem add_group_to_node_logsAppendOnly (env : Env) (g : OSFGroup) (node : Nat)
    (permission : String) (auth : Option Auth) :
    logsAppendOnly g (g.add_group_to_node env node permission auth) := by
  unfold OSFGroup.add_group_to_node
  split
  · exact ⟨⟨[], by simp⟩, by simp⟩
  · dsimp only
    split_ifs
    · split
      · exact ⟨⟨[], by simp⟩, by simp⟩
      · split_ifs
        · exact ⟨⟨[], by simp⟩, by simp⟩
        · exact update_group_permissions_logsAppendOnly g node permission auth
    · split
      · exact ⟨⟨[], by simp⟩, by simp⟩
      · refine ⟨⟨_, rfl⟩, fun _ => ?_⟩
        simp [OSFGroup.setNodePerms]

theorem remove_group_from_node_logsAppendOnly (g : OSFGroup) (node : Nat)
    (auth : Option Auth) :
    logsAppendOnly g (g.remove_group_from_node node auth) := by
  unfold OSFGroup.remove_group_from_node
  split_ifs
  · exact ⟨⟨[], by simp⟩, by simp⟩
  · refine ⟨⟨_, rfl⟩, fun _ => ?_⟩
    simp [OSFGroup.setNodePerms]

/-- C5 (amended): `make_member`, `make_manager`, `remove_member`,
`set_group_name`, `add_group_to_node`, `update_group_permissions_to_node` and
`remove_group_from_node` never remove or mutate existing `OSFGroupLog` rows
(the old log is a prefix of the new one) and append at least one entry
whenever they perform their change (Python return `None`);
`replace_contributor`, by contrast, changes membership while appending no log
entry at all. -/
theorem group_log_append_only
    (env : Env) (g : OSFGroup) (u node oldUser newUser : Nat) (auth : Option Auth)
    (stripHtml : String → String) (name permission : String) :
    logsAppendOnly g (g.make_member env u auth) ∧
    logsAppendOnly g (g.make_manager env u auth) ∧
    logsAppendOnly g (g.remove_member env u auth) ∧
    logsAppendOnly g (g.set_group_name env stripHtml name auth) ∧
    logsAppendOnly g (g.add_group_to_node env node permission auth) ∧
    logsAppendOnly g (g.update_group_permissions_to_node node permission auth) ∧
    logsAppendOnly g (g.remove_group_from_node node auth) ∧
    (g.replace_contributor oldUser newUser).2.logs = g.logs :=
  ⟨make_member_logsAppendOnly env g u auth,
   make_manager_logsAppendOnly env g u auth,
   remove_member_logsAppendOnly env g u auth,
   set_group_name_logsAppendOnly env g stripHtml name auth,
   add_group_to_node_logsAppendOnly env g node permission auth,
   update_group_permissions_logsAppendOnly g node permission auth,
   remove_group_from_node_logsAppendOnly g node auth,
   by unfold OSFGroup.replace_contributor; split_ifs <;> rfl⟩

/-- A concrete group with an unregistered member (user 4) to replace. -/
def gReplace : OSFGroup :=
  { gid := 2, name := "g2", memberSet := [4, 7], managerSet := [7], logs := [],
    nodePerms := fun _ => [], deleted := false }

/-- Counterexample to C5 as stated: `replace_contributor` performs a
membership change (returns `True`, the member set changes) yet appends no
`OSFGroupLog` entry. -/
theorem replace_contributor_appends_no_log :
    (gReplace.replace_contributor 4 9).1 = .ok (some true) ∧
    (gReplace.replace_contributor 4 9).2.memberSet ≠ gReplace.memberSet ∧
    (gReplace.replace_contributor 4 9).2.logs = gReplace.logs := by
  refine ⟨rfl, ?_, rfl⟩
  decide

/-- With both deques non-empty, the `validate_metadata` handler always raises
the framework `ValidationError`. -/
theorem metadataScan_cons_error (s : String) (sp2 : List String) (r : String)
    (rp2 : List String) (m : String) (qs : List SchemaQuestion) :
    ∃ msg, metadataScan (s :: sp2) (r :: rp2) m qs = .error (.validationError msg) := by
  induction qs with
  | nil => exact ⟨m, rfl⟩
  | cons q rest ih =>
    by_cases hreq : s = "required"
    · exact ⟨requiredMessage q.title, by simp [metadataScan, hreq]⟩
    · by_cases hadd : s = "additionalProperties"
      · exact ⟨extraneousMessage q.qid, by simp [metadataScan, hreq, hadd]⟩
      · by_cases hqid : r = q.qid
        · by_cases hopt : q.hasOptions = true
          · exact ⟨optionsMessage q.title, by simp [metadataScan, hreq, hadd, hqid, hopt]⟩
          · exact ⟨invalidMessage q.title, by simp [metadataScan, hreq, hadd, hqid, hopt]⟩
        · obtain ⟨msg, hmsg⟩ := ih
          exact ⟨msg, by simp [metadataScan, hreq, hadd, hqid, hmsg]⟩

/-- Outside the degenerate cases, `metadataScan` raises `ValidationError`. -/
theorem metadataScan_framework (sp rp : List String) (m : String) (qs : List SchemaQuestion)
    (hsp : sp ≠ [])
    (h : rp ≠ [] ∨ sp.head? = some "required" ∨ sp.head? = some "additionalProperties" ∨
      qs = []) :
    ∃ msg, metadataScan sp rp m qs = .error (.validationError msg) := by
  obtain ⟨s, sp2, rfl⟩ := List.exists_cons_of_ne_nil hsp
  cases qs with
  | nil => exact ⟨m, rfl⟩
  | cons q rest =>
    by_cases hreq : s = "required"
    · exact ⟨requiredMessage q.title, by simp [metadataScan, hreq]⟩
    · by_cases hadd : s = "additionalProperties"
      · exact ⟨extraneousMessage q.qid, by simp [metadataScan, hreq, hadd]⟩
      · have hrp : rp ≠ [] := by
          rcases h with h | h | h | h
          · exact h
          · simp at h; exact absurd h hreq
          · simp at h; exact absurd h hadd
          · simp at h
        obtain ⟨r, rp2, rfl⟩ := List.exists_cons_of_ne_nil hrp
        exact metadataScan_cons_error s sp2 r rp2 m (q :: rest)

/-- Counterexample to C3 as stated: a jsonschema `ValidationError` whose
`relative_path` is empty (e.g. a top-level type error) escapes
`validate_metadata` as a raw `IndexError` (from `e.relative_path[0]`), not as
the framework `ValidationError`. -/
theorem validate_metadata_raises_raw_index_error :
    validate_metadata [{ questions := [{ title := "Q1", qid := "q1", hasOptions := false }] }]
      (.vError ["type"] [] "3 is not of type object") = .error .indexError := rfl

/-- C3 (amended): provided the error's `relative_schema_path` is non-empty
(as jsonschema guarantees) and — for `validate_metadata` — its
`relative_path` is non-empty, or the schema-path head is `required` or
`additionalProperties`, or the schema has no questions, every jsonschema
validation failure is re-raised as the framework `ValidationError`, with the
message keyed on the failing sub-path (`required` → required message,
`additionalProperties` → extraneous message, enum → options message, other →
generic invalid-response message), and a `SchemaError` is re-raised as
`ValidationValueError`. -/
theorem validation_failures_framework_errors
    (pages : List SchemaPage) (props : List (String × ResponseProperty))
    (sp rp : List String) (m : String) (q : SchemaQuestion) (rest : List SchemaQuestion)
    (hsp : sp ≠ []) :
    ((rp ≠ [] ∨ sp.head? = some "required" ∨ sp.head? = some "additionalProperties" ∨
        pages.flatMap SchemaPage.questions = []) →
      ∃ msg, validate_metadata pages (.vError sp rp m) = .error (.validationError msg)) ∧
    validate_metadata pages (.sError m) = .error (.validationValueError m) ∧
    (pages.flatMap SchemaPage.questions = q :: rest → sp.head? = some "required" →
      validate_metadata pages (.vError sp rp m) =
        .error (.validationError (requiredMessage q.title))) ∧
    (pages.flatMap SchemaPage.questions = q :: rest →
        sp.head? = some "additionalProperties" →
      validate_metadata pages (.vError sp rp m) =
        .error (.validationError (extraneousMessage q.qid))) ∧
    (∃ msg, validate_registration_responses props (.vError sp rp m) =
      .error (.validationError msg)) ∧
    validate_registration_responses props (.sError m) = .error (.validationValueError m) ∧
    (∀ prop, props.lookup (rp.head?.getD "") = some prop →
      (sp.head? = some "required" →
        validate_registration_responses props (.vError sp rp m) =
          .error (.validationError (requiredMessage (responseTitle (rp.head?.getD "") prop)))) ∧
      (sp.head? ≠ some "required" → prop.hasEnum = true →
        validate_registration_responses props (.vError sp rp m) =
          .error (.validationError (responsesOptionsMessage (responseTitle (rp.head?.getD "") prop)))) ∧
      (sp.head? ≠ some "required" → prop.hasEnum = false →
        validate_registration_responses props (.vError sp rp m) =
          .error (.validationError
            (responsesInvalidMessage (responseTitle (rp.head?.getD "") prop) m)))) := by
  obtain ⟨s, sp2, rfl⟩ := List.exists_cons_of_ne_nil hsp
  refine ⟨?_, rfl, ?_, ?_, ?_, rfl, ?_⟩
  · intro h
    exact metadataScan_framework (s :: sp2) rp m (pages.flatMap SchemaPage.questions)
      (by simp) h
  · intro hflat hr
    simp only [List.head?_cons, Option.some.injEq] at hr
    subst hr
    simp only [validate_metadata]
    rw [hflat]
    simp [metadataScan]
  · intro hflat hr
    simp only [List.head?_cons, Option.some.injEq] at hr
    subst hr
    simp only [validate_metadata]
    rw [hflat]
    simp [metadataScan]
  · simp only [validate_registration_responses]
    cases hlk : props.lookup (rp.head?.getD "") with
    | none => exact ⟨m, by simp [hlk]⟩
    | some prop =>
      by_cases hreq : s = "required"
      · exact ⟨requiredMessage (responseTitle (rp.head?.getD "") prop), by simp [hlk, hreq]⟩
      · by_cases henum : prop.hasEnum = true
        · exact ⟨responsesOptionsMessage (responseTitle (rp.head?.getD "") prop),
            by simp [hlk, hreq, henum]⟩
        · exact ⟨responsesInvalidMessage (responseTitle (rp.head?.getD "") prop) m,
            by simp [hlk, hreq, henum]⟩
  · intro prop hlk
    refine ⟨?_, ?_, ?_⟩
    · intro hr
      simp only [List.head?_cons, Option.some.injEq] at hr
      subst hr
      simp [validate_registration_responses, hlk]
    · intro hr henum
      have hs : ¬s = "required" := by
        intro h
        exact hr (by simp [h])
      simp [validate_registration_responses, hlk, hs, henum]
    · intro hr henum
      have hs : ¬s = "required" := by
        intro h
        exact hr (by simp [h])
      simp [validate_registration_responses, hlk, hs, henum]

theorem validation_failures_framework_errors_witness :
    (([] : List String) ≠ [] ∨
        (["required"] : List String).head? = some "required" ∨
        (["required"] : List String).head? = some "additionalProperties" ∨
        ([SchemaPage.mk [SchemaQuestion.mk "T" "q1" false]].flatMap SchemaPage.questions) = [] →
      ∃ msg, validate_metadata [SchemaPage.mk [SchemaQuestion.mk "T" "q1" false]]
        (.vError ["required"] [] "m") = .error (.validationError msg)) ∧
    validate_metadata [SchemaPage.mk [SchemaQuestion.mk "T" "q1" false]] (.sError "m") =
      .error (.validationValueError "m") ∧
    (([SchemaPage.mk [SchemaQuestion.mk "T" "q1" false]].flatMap SchemaPage.questions) =
        SchemaQuestion.mk "T" "q1" false :: [] →
      (["required"] : List String).head? = some "required" →
      validate_metadata [SchemaPage.mk [SchemaQuestion.mk "T" "q1" false]]
        (.vError ["required"] [] "m") =
        .error (.validationError (requiredMessage "T"))) ∧
    (([SchemaPage.mk [SchemaQuestion.mk "T" "q1" false]].flatMap SchemaPage.questions) =
        SchemaQuestion.mk "T" "q1" false :: [] →
      (["required"] : List String).head? = some "additionalProperties" →
      validate_metadata [SchemaPage.mk [SchemaQuestion.mk "T" "q1" false]]
        (.vError ["required"] [] "m") =
        .error (.validationError (extraneousMessage "q1"))) ∧
    (∃ msg, validate_registration_responses [("q1", ResponseProperty.mk (some "T") true)]
      (.vError ["required"] [] "m") = .error (.validationError msg)) ∧
    validate_registration_responses [("q1", ResponseProperty.mk (some "T") true)] (.sError "m") =
      .error (.validationValueError "m") ∧
    (∀ prop, ([("q1", ResponseProperty.mk (some "T") true)]).lookup
        ((([] : List String)).head?.getD "") = some prop →
      ((["required"] : List String).head? = some "required" →
        validate_registration_responses [("q1", ResponseProperty.mk (some "T") true)]
          (.vError ["required"] [] "m") =
          .error (.validationError
            (requiredMessage (responseTitle ((([] : List String)).head?.getD "") prop)))) ∧
      ((["required"] : List String).head? ≠ some "required" → prop.hasEnum = true →
        validate_registration_responses [("q1", ResponseProperty.mk (some "T") true)]
          (.vError ["required"] [] "m") =
          .error (.validationError
            (responsesOptionsMessage (responseTitle ((([] : List String)).head?.getD "") prop)))) ∧
      ((["required"] : List String).head? ≠ some "required" → prop.hasEnum = false →
        validate_registration_responses [("q1", ResponseProperty.mk (some "T") true)]
          (.vError ["required"] [] "m") =
          .error (.validationError
            (responsesInvalidMessage (responseTitle ((([] : List String)).head?.getD "") prop)
              "m")))) :=
  validation_failures_framework_errors [SchemaPage.mk [SchemaQuestion.mk "T" "q1" false]]
    [("q1", ResponseProperty.mk (some "T") true)] ["required"] [] "m"
    (SchemaQuestion.mk "T" "q1" false) [] (by simp)
